import Mathlib

/-!
# KDDockWidgets: layout linter, QtQuick view and test helpers

A shallow embedding of

* `src/layoutlinter_main.cpp` (`lint`, `main`),
* `src/qtquick/views/View_qtquick.cpp` (`MouseEventRedirector`, `flagsAreTopLevelFlags`,
  `actualParentItem`, the constructor, `isRootView`, `parentViewFor`, `minSize`, `setSize`,
  `move`, `setGeometry`, `geometry`, `setAttribute`, `testAttribute`,
  `QQUICKITEMgeometryChanged`),
* `tests/utils.cpp` (`createMainWindow(docks)`, `nestDockWidget`, `moveMouseTo`).

Pointers are object identifiers (`Nat`), a null pointer is `none`. C++ `int` values are
unbounded integers (signed overflow is undefined in C++, so the embedding speaks of runs
without it); the coordinates a `QQuickItem` stores as `qreal` are integers as well, since
every value written below is an `int` and converts exactly. Qt classes (`QRect`, `QHash`,
`QWindow`, `QFlags`, event filters, `deleteLater`) follow their documented behaviour; a
`QWindow` keeps the geometry it is given. The rectangles handed to the geometry change
handler have rational coordinates, compared the way Qt compares `qreal` coordinates.
-/

namespace KDDockWidgets

/-! ## The layout linter (`src/layoutlinter_main.cpp`) -/

namespace Linter

/-- One entry of `Platform::frontendTypes()`. -/
inductive FrontendType where
  | QtWidgets
  | QtQuick
  | Flutter
  deriving DecidableEq, Repr

/-- The `RestoreOptions` flags word. -/
abbrev RestoreOptions := Nat

/-- The flag value `RestoreOption_None`. -/
def RestoreOption_None : RestoreOptions := 0

/-- What an invocation does besides returning, in program order. -/
inductive Effect where
  | qDebug (msg : String)
  | tests_initPlatform (argc : Nat) (frontend : FrontendType)
  | setDockWidgetFactoryFunc
  | setMainWindowFactoryFunc
  | restoreFromFile (options : RestoreOptions) (filename : String)
  | tests_deinitPlatform
  deriving DecidableEq, Repr

/-- The outcome of `LayoutSaver(options).restoreFromFile(filename)`; the layout saver is
not part of the linter, the linter only reads its boolean result. -/
abbrev Restorer := RestoreOptions → String → Bool

/-- The result of running `main`: the value it returns and what it did. -/
structure Run where
  exitCode : Int
  effects : List Effect
  deriving DecidableEq, Repr

/-- The function `lint(filename, options)`: installs both factory functions, then restores
the file with a `LayoutSaver` built from `options` and returns its result. -/
def lint (restoreFromFile : Restorer) (filename : String) (options : RestoreOptions) :
    Bool × List Effect :=
  (restoreFromFile options filename,
    [Effect.setDockWidgetFactoryFunc, Effect.setMainWindowFactoryFunc,
     Effect.restoreFromFile options filename])

/-- The function `main(argc, argv)`; `argc` is the length of `argv`, `frontends` is what
`Platform::frontendTypes()` returns, and `qGuiApp->arguments()` is `argv`. -/
def main (frontends : List FrontendType) (restoreFromFile : Restorer) (argv : List String) :
    Run :=
  match frontends with
  | [] =>
    { exitCode := -1,
      effects := [Effect.qDebug
        "Error: Your KDDockWidgets installation doesn't support any frontend!"] }
  | frontend0 :: _ =>
    if h : argv.length ≠ 2 then
      { exitCode := 1,
        effects := [Effect.qDebug "Usage: kddockwidgets_linter <layout json file>"] }
    else
      let options := RestoreOption_None
      let r := lint restoreFromFile (argv.get ⟨1, by omega⟩) options
      let exitCode : Int := if r.1 then 0 else 2
      { exitCode := exitCode,
        effects := Effect.tests_initPlatform argv.length frontend0 :: r.2
          ++ [Effect.tests_deinitPlatform] }

/-- Whether an effect initialises the platform. -/
def Effect.isInit : Effect → Bool
  | Effect.tests_initPlatform _ _ => true
  | _ => false

/-- Whether an effect is a restore attempt. -/
def Effect.isRestore : Effect → Bool
  | Effect.restoreFromFile _ _ => true
  | _ => false

end Linter

/-! ## Qt value types used by the QtQuick view -/

/-- The address of a `QObject`; a null pointer is `none : Option QObjectId`. -/
abbrev QObjectId := Nat

/-- The class `QSize`: a width and a height. -/
structure QSize where
  wd : Int
  ht : Int
  deriving DecidableEq, Repr

namespace QSize

/-- The default-constructed `QSize()`, which is what `QVariant::toSize()` gives for a
property that was never set. -/
def invalid : QSize := ⟨-1, -1⟩

/-- The method `QSize::expandedTo`: the maximum in each dimension. -/
def expandedTo (s other : QSize) : QSize :=
  ⟨max s.wd other.wd, max s.ht other.ht⟩

/-- Smaller than `m` in at least one dimension. -/
def smallerThan (s m : QSize) : Prop := s.wd < m.wd ∨ s.ht < m.ht

instance (s m : QSize) : Decidable (s.smallerThan m) := by
  unfold smallerThan; infer_instance

end QSize

/-- The class `QPoint`. -/
structure QPoint where
  xp : Int
  yp : Int
  deriving DecidableEq, Repr

/-- The class `QRect`, stored as Qt stores it: the top-left and the bottom-right corner,
both inclusive. -/
structure QRect where
  x1 : Int
  y1 : Int
  x2 : Int
  y2 : Int
  deriving DecidableEq, Repr

namespace QRect

/-- The constructor `QRect(const QPoint &topLeft, const QSize &size)`. -/
def ofTopLeftSize (p : QPoint) (s : QSize) : QRect :=
  ⟨p.xp, p.yp, p.xp + s.wd - 1, p.yp + s.ht - 1⟩

/-- The method `QRect::width`. -/
def width (r : QRect) : Int := r.x2 - r.x1 + 1

/-- The method `QRect::height`. -/
def height (r : QRect) : Int := r.y2 - r.y1 + 1

/-- The method `QRect::size`. -/
def size (r : QRect) : QSize := ⟨r.width, r.height⟩

/-- The method `QRect::topLeft`. -/
def topLeft (r : QRect) : QPoint := ⟨r.x1, r.y1⟩

/-- The method `QRect::setSize`: keeps the top-left corner. -/
def setSize (r : QRect) (s : QSize) : QRect :=
  { r with x2 := r.x1 + s.wd - 1, y2 := r.y1 + s.ht - 1 }

end QRect

/-! ## The QtQuick view (`src/qtquick/views/View_qtquick.cpp`) -/

namespace Views

/-- The window flags word `Qt::WindowFlags`. -/
abbrev WindowFlags := Nat

/-- The flag `Qt::Window`. -/
def Qt_Window : WindowFlags := 0x1

/-- The flag `Qt::Tool`, which is `Qt::Popup | Qt::Dialog`. -/
def Qt_Tool : WindowFlags := 0xb

/-- The window type `Qt::SubWindow`. -/
def Qt_SubWindow : WindowFlags := 0x12

/-- The method `QFlags::testFlag`: whether the flags word contains the flag, all its bits. -/
def testFlag (flags flag : WindowFlags) : Bool :=
  flags &&& flag == flag && (flag != 0 || flags == flag)

/-- The attribute `Qt::WA_Moved`. -/
def Qt_WA_Moved : Nat := 43

/-- The function `flagsAreTopLevelFlags`: `flags & (Qt::Window | Qt::Tool)` as a bool. -/
def flagsAreTopLevelFlags (flags : WindowFlags) : Bool :=
  flags &&& (Qt_Window ||| Qt_Tool) != 0

/-- The function `actualParentItem`: no parent item for a top-level. -/
def actualParentItem (candidateParentItem : Option QObjectId) (flags : WindowFlags) :
    Option QObjectId :=
  if flagsAreTopLevelFlags flags then none else candidateParentItem

/-- What the view needs of a `QQuickWindow`: its content item, whether it is a
`QQuickView` and then its root object, and the window geometry. -/
structure QQuickWindow where
  contentItem : QObjectId
  isQQuickView : Bool
  rootObject : Option QObjectId
  geometry : QRect
  deriving DecidableEq, Repr

namespace QQuickWindow

/-- The method `QWindow::size`. -/
def size (w : QQuickWindow) : QSize := w.geometry.size

/-- The method `QWindow::setGeometry`. -/
def setGeometry (w : QQuickWindow) (r : QRect) : QQuickWindow := { w with geometry := r }

/-- The method `QWindow::setPosition(x, y)`: moves the window, keeping its size. -/
def setPosition (w : QQuickWindow) (x y : Int) : QQuickWindow :=
  w.setGeometry (QRect.ofTopLeftSize ⟨x, y⟩ w.size)

/-- The part of a window that `isRootView` reads: everything but the geometry. (Used to
state that resizing and moving a window do not change which items are root views.) -/
def scene (w : QQuickWindow) : QObjectId × Bool × Option QObjectId :=
  (w.contentItem, w.isQQuickView, w.rootObject)

end QQuickWindow

/-- What the view needs of a `QQuickItem`: its address, its parent item and `QObject`
parent, the window it is shown in, its position and size, and the dynamic property
`kddockwidgets_min_size` (`none` while unset). -/
structure QQuickItem where
  self : QObjectId
  parentItem : Option QObjectId
  qobjectParent : Option QObjectId
  window : Option QQuickWindow
  x : Int
  y : Int
  width : Int
  height : Int
  kddockwidgets_min_size : Option QSize
  deriving DecidableEq, Repr

/-- A `View_qtquick`: a `QQuickItem` with the view's own members. -/
structure View_qtquick extends QQuickItem where
  m_widgetAttributes : Nat
  m_windowFlags : WindowFlags
  deriving DecidableEq, Repr

/-- The static function `View_qtquick::isRootView(const QQuickItem *)`. -/
def isRootView (item : QQuickItem) : Bool :=
  match item.parentItem with
  | none => true
  | some parent =>
    match item.window with
    | some w =>
      if parent == w.contentItem || item.self == w.contentItem then true
      else if w.isQQuickView
          && (some parent == w.rootObject || some item.self == w.rootObject) then true
      else false
    | none => false

/-- The static function `View_qtquick::parentViewFor(const QQuickItem *)`; the result is
the item the returned wrapper wraps, `none` for a null result. -/
def parentViewFor (item : QQuickItem) : Option QObjectId :=
  let p := item.parentItem
  match item.window with
  | some window => if p == some window.contentItem then none else p
  | none => p

namespace View_qtquick

/-- The method `View_qtquick::minSize`; `hardcodedMinimumSize` is
`Layouting::Item::hardcodedMinimumSize`. -/
def minSize (hardcodedMinimumSize : QSize) (v : View_qtquick) : QSize :=
  let min := v.kddockwidgets_min_size.getD QSize.invalid
  min.expandedTo hardcodedMinimumSize

/-- The method `View_qtquick::setAttribute`. -/
def setAttribute (v : View_qtquick) (attr : Nat) (enable : Bool) : View_qtquick :=
  if enable then
    { v with m_widgetAttributes := v.m_widgetAttributes ||| attr }
  else
    { v with m_widgetAttributes := v.m_widgetAttributes ^^^ (v.m_widgetAttributes &&& attr) }

/-- The method `View_qtquick::setSize`. -/
def setSize (hardcodedMinimumSize : QSize) (v : View_qtquick) (w h : Int) : View_qtquick :=
  let newSize := (QSize.mk w h).expandedTo (v.minSize hardcodedMinimumSize)
  let v1 : View_qtquick :=
    if isRootView v.toQQuickItem then
      match v.window with
      | some window =>
        if window.size ≠ newSize then
          let windowGeo := window.geometry
          let windowGeo := windowGeo.setSize newSize
          { v with window := some (window.setGeometry windowGeo) }
        else v
      | none => v
    else v
  { v1 with width := w, height := h }

/-- The method `View_qtquick::move(int, int)`. -/
def move (v : View_qtquick) (x y : Int) : View_qtquick :=
  match isRootView v.toQQuickItem, v.window with
  | true, some w => { v with window := some (w.setPosition x y) }
  | _, _ =>
    let v1 : View_qtquick := { v with x := x }
    let v2 : View_qtquick := { v1 with y := y }
    v2.setAttribute Qt_WA_Moved true

/-- The method `View_qtquick::setGeometry`. -/
def setGeometry (hardcodedMinimumSize : QSize) (v : View_qtquick) (rect : QRect) :
    View_qtquick :=
  let v1 := v.setSize hardcodedMinimumSize rect.width rect.height
  v1.move rect.topLeft.xp rect.topLeft.yp

/-- The method `View_qtquick::geometry`. -/
def geometry (v : View_qtquick) : QRect :=
  match isRootView v.toQQuickItem, v.window with
  | true, some w => w.geometry
  | _, _ => QRect.ofTopLeftSize ⟨v.x, v.y⟩ ⟨v.width, v.height⟩

/-- The constructor `View_qtquick(controller, type, parent, flags)` for a view allocated at
`self`: the `QQuickItem` base is built with `actualParentItem(parent, flags)` (which sets
both the parent item and the `QObject` parent), a top-level with a parent then gets the
`QObject` parent alone, and the size is set to 800 x 800. `parentWindow` is the window of
the parent item, which a new child item joins. -/
def construct (hardcodedMinimumSize : QSize) (self : QObjectId) (parent : Option QObjectId)
    (parentWindow : Option QQuickWindow) (flags : WindowFlags) : View_qtquick :=
  let base : QQuickItem :=
    { self := self
      parentItem := actualParentItem parent flags
      qobjectParent := actualParentItem parent flags
      window := if (actualParentItem parent flags).isSome then parentWindow else none
      x := 0, y := 0, width := 0, height := 0
      kddockwidgets_min_size := none }
  let v : View_qtquick := { toQQuickItem := base, m_widgetAttributes := 0, m_windowFlags := flags }
  let v : View_qtquick :=
    if parent.isSome && flagsAreTopLevelFlags flags then { v with qobjectParent := parent }
    else v
  v.setSize hardcodedMinimumSize 800 800

end View_qtquick

end Views

/-! ## The mouse event redirector (`src/qtquick/views/View_qtquick.cpp`) -/

namespace Views

/-- A live `MouseEventRedirector`: its address and its two constant members. Its `QObject`
parent is `m_eventTarget`. -/
structure MouseEventRedirector where
  self : QObjectId
  m_eventSource : QObjectId
  m_eventTarget : QObjectId
  deriving DecidableEq, Repr

/-- The state the redirectors live in: the next free address, the live redirectors, the
event filters installed on each object (pairs of watched object and filter, the most
recently installed first), the static hash `s_mouseEventRedirectors` (pairs of event source
and redirector, no key twice), and the redirectors whose `deleteLater` is pending. -/
structure World where
  nextId : QObjectId
  redirectors : List MouseEventRedirector
  eventFilters : List (QObjectId × QObjectId)
  s_mouseEventRedirectors : List (QObjectId × QObjectId)
  deferredDelete : List QObjectId
  deriving DecidableEq, Repr

namespace World

/-- The state before any redirector exists; redirectors get the addresses from `first` on. -/
def init (first : QObjectId) : World :=
  { nextId := first, redirectors := [], eventFilters := [], s_mouseEventRedirectors := [],
    deferredDelete := [] }

/-- The method `QHash::value(key)`: the stored redirector, null when there is none. -/
def hashValue (w : World) (key : QObjectId) : Option QObjectId :=
  (w.s_mouseEventRedirectors.find? (fun e => e.1 == key)).map Prod.snd

/-- The method `QHash::remove(key)`. -/
def hashRemove (w : World) (key : QObjectId) : World :=
  { w with s_mouseEventRedirectors := w.s_mouseEventRedirectors.filter (fun e => e.1 != key) }

/-- The method `QHash::take(key)`: removes the entry and returns what it held. -/
def hashTake (w : World) (key : QObjectId) : Option QObjectId × World :=
  (w.hashValue key, w.hashRemove key)

/-- The method `QHash::insert(key, value)`: replaces the value of an existing key. -/
def hashInsert (w : World) (key value : QObjectId) : World :=
  { w with s_mouseEventRedirectors :=
      (key, value) :: w.s_mouseEventRedirectors.filter (fun e => e.1 != key) }

/-- The method `QObject::installEventFilter`: the filter goes first, once. -/
def installEventFilter (w : World) (obj filterObj : QObjectId) : World :=
  { w with eventFilters :=
      (obj, filterObj) :: w.eventFilters.filter (fun e => e != (obj, filterObj)) }

/-- The method `QObject::removeEventFilter`. -/
def removeEventFilter (w : World) (obj filterObj : QObjectId) : World :=
  { w with eventFilters := w.eventFilters.filter (fun e => e != (obj, filterObj)) }

/-- The method `QObject::deleteLater`: the deletion waits for the event loop. -/
def deleteLater (w : World) (obj : QObjectId) : World :=
  { w with deferredDelete := w.deferredDelete ++ [obj] }

/-- The static method `MouseEventRedirector::redirectorForSource`. -/
def redirectorForSource (w : World) (eventSource : QObjectId) : Option QObjectId :=
  w.hashValue eventSource

/-- The live redirector at an address. -/
def redirectorAt (w : World) (r : QObjectId) : Option MouseEventRedirector :=
  w.redirectors.find? (fun m => m.self == r)

/-- The constructor `MouseEventRedirector(eventSource, eventTarget)`, run on a freshly
allocated object. -/
def newMouseEventRedirector (w : World) (eventSource eventTarget : QObjectId) : World :=
  let this := w.nextId
  let w : World :=
    { w with nextId := this + 1,
             redirectors := ⟨this, eventSource, eventTarget⟩ :: w.redirectors }
  let w := w.installEventFilter eventSource this
  let (oldRedirector, w) := w.hashTake eventSource
  let w :=
    match oldRedirector with
    | some old => (w.removeEventFilter eventSource old).deleteLater old
    | none => w
  w.hashInsert eventSource this

/-- The destructor `~MouseEventRedirector` followed by `~QObject`: the body removes the
hash entry of `m_eventSource`; the object then ceases to exist, which also takes it out of
every event filter list and cancels a pending `deleteLater`. Deleting an address that holds
no live redirector does nothing. -/
def deleteRedirector (w : World) (r : QObjectId) : World :=
  match w.redirectorAt r with
  | none => w
  | some m =>
    let w := w.hashRemove m.m_eventSource
    { w with redirectors := w.redirectors.filter (fun m => m.self != r),
             eventFilters := w.eventFilters.filter (fun e => e.2 != r),
             deferredDelete := w.deferredDelete.filter (fun d => d != r) }

/-- The method `View_qtquick::redirectMouseEvents(source)` called on the view `this`. -/
def redirectMouseEvents (w : World) (this source : QObjectId) : World :=
  match (w.redirectorForSource source).bind w.redirectorAt with
  | some existingRedirector =>
    if existingRedirector.m_eventTarget == this then w
    else w.newMouseEventRedirector source this
  | none => w.newMouseEventRedirector source this

/-- The event loop delivers every pending deferred deletion. -/
def processDeferredDeletes (w : World) : World :=
  w.deferredDelete.foldl deleteRedirector w

/-- The redirectors installed as event filters on an event source. -/
def installedOn (w : World) (eventSource : QObjectId) : List QObjectId :=
  (w.eventFilters.filter (fun e => e.1 == eventSource)).map Prod.snd

end World

/-- What can happen to the redirectors: a view redirects a source to itself, the event loop
runs the deferred deletions, or one redirector is deleted (with its parent view, say). -/
inductive RedirectorStep where
  | redirectMouseEvents (view source : QObjectId)
  | processDeferredDeletes
  | deleteRedirector (r : QObjectId)
  deriving DecidableEq, Repr

/-- One step on the state. -/
def World.step (w : World) : RedirectorStep → World
  | RedirectorStep.redirectMouseEvents view source => w.redirectMouseEvents view source
  | RedirectorStep.processDeferredDeletes => w.processDeferredDeletes
  | RedirectorStep.deleteRedirector r => w.deleteRedirector r

/-- A sequence of steps on the state. -/
def World.run (w : World) (steps : List RedirectorStep) : World :=
  steps.foldl World.step w

end Views

/-! ## The test helpers (`tests/utils.cpp`) -/

namespace Tests

/-- The enum `KDDockWidgets::Location`. -/
inductive Location where
  | Location_None
  | Location_OnLeft
  | Location_OnTop
  | Location_OnRight
  | Location_OnBottom
  deriving DecidableEq, Repr

/-- A `DockDescriptor` as the helper uses it: where to dock, the index of the descriptor
to dock relative to (-1 for none), the dock widget created for it (null until created) and
the option passed on to `addDockWidget`. -/
structure DockDescriptor (Dock Opt : Type) where
  loc : Location
  relativeToIndex : Int
  createdDock : Option Dock
  option : Opt

/-- The layout engine as the helpers call it. `MW` is the state of a main window with its
layout (or of a drop area), `Dock` a dock widget, `Opt` an `InitialOption`. The engine is
not part of the helpers; they only call these operations. -/
structure Engine (MW Dock Opt : Type) where
  createMainWindow : String → MW
  createDockWidget : String → Dock
  addDockWidget : MW → Dock → Location → Option Dock → Opt → MW
  addWidget : MW → Dock → Location → Option Dock → MW
  checkSanity : MW → Bool

/-- How a helper ends: it returns, or the process is aborted by a failed assertion. -/
inductive Outcome (α : Type) where
  | returned (value : α)
  | aborted (what : String)
  deriving DecidableEq, Repr

/-- What a helper that returned hands back, with the results of the `checkSanity` calls it
made, in call order. -/
structure Helped (MW Dock Opt : Type) where
  m : MW
  docks : List (DockDescriptor Dock Opt)
  sanity : List Bool

/-- The assertion `Q_ASSERT(cond)`, assertions being compiled in as they are for the
tests: a false condition aborts. -/
def Q_ASSERT {α : Type} (cond : Bool) (what : String) (rest : Outcome α) : Outcome α :=
  if cond then rest else Outcome.aborted what

/-- The loop of `createMainWindow(docks)` from descriptor `i` on: `todo` are the descriptors
not yet visited, `st` holds the main window, all descriptors and the `checkSanity` results
so far. The result of `layout->checkSanity()` is not looked at. -/
def createMainWindowLoop {MW Dock Opt : Type} (e : Engine MW Dock Opt) (count : Nat) :
    (todo : List (DockDescriptor Dock Opt)) → (i : Nat) → Helped MW Dock Opt →
    Outcome (Helped MW Dock Opt)
  | [], _, st => Outcome.returned st
  | desc :: todo, i, st =>
    let createdDock := e.createDockWidget (toString i ++ "-" ++ toString count)
    let docks := st.docks.set i { desc with createdDock := some createdDock }
    let addAndCheck (relativeTo : Option Dock) : Outcome (Helped MW Dock Opt) :=
      let m := e.addDockWidget st.m createdDock desc.loc relativeTo desc.option
      let sane := e.checkSanity m
      createMainWindowLoop e count todo (i + 1)
        { m := m, docks := docks, sanity := st.sanity ++ [sane] }
    if desc.relativeToIndex ≠ -1 then
      if desc.relativeToIndex < 0 then Outcome.aborted "QVector::at: index out of range"
      else
        match docks.get? desc.relativeToIndex.toNat with
        | some other => addAndCheck other.createdDock
        | none => Outcome.aborted "QVector::at: index out of range"
    else addAndCheck none

/-- The helper `createMainWindow(QVector<DockDescriptor> &docks)`; `count` is the value of
its static counter after the increment. -/
def createMainWindow {MW Dock Opt : Type} (e : Engine MW Dock Opt) (count : Nat)
    (docks : List (DockDescriptor Dock Opt)) : Outcome (Helped MW Dock Opt) :=
  let m := e.createMainWindow ("MyMainWindow" ++ toString count)
  createMainWindowLoop e count docks 0 { m := m, docks := docks, sanity := [] }

/-- The helper `nestDockWidget(dock, dropArea, relativeTo, location)`: the dock widget goes
into a new group, the group's view is added to the drop area, and the sanity of the drop
area is asserted. Returns the drop area and the result of `checkSanity`. -/
def nestDockWidget {MW Dock Opt : Type} (e : Engine MW Dock Opt) (dock : Dock) (dropArea : MW)
    (relativeTo : Option Dock) (location : Location) : Outcome (MW × Bool) :=
  let dropArea := e.addWidget dropArea dock location relativeTo
  let sane := e.checkSanity dropArea
  Q_ASSERT sane "dropArea->checkSanity()" (Outcome.returned (dropArea, sane))

/-- A toy engine for evaluating the helpers: the layout is the list of dock widgets added
so far, and `checkSanity` answers `sane` whatever the layout. -/
def toyEngine (sane : Bool) : Engine (List String) String Unit :=
  { createMainWindow := fun _ => []
    createDockWidget := fun name => name
    addDockWidget := fun m dock _ _ _ => m ++ [dock]
    addWidget := fun m dock _ _ => m ++ [dock]
    checkSanity := fun _ => sane }

end Tests

/-! ## Widget attributes and geometry change events (`src/qtquick/views/View_qtquick.cpp`) -/

namespace Views

/-- The attribute `Qt::WA_Disabled`, the first enumerator of `Qt::WidgetAttribute`. -/
def Qt_WA_Disabled : Nat := 0

/-- The method `View_qtquick::testAttribute`: `m_widgetAttributes & attr` as a bool. -/
def View_qtquick.testAttribute (v : View_qtquick) (attr : Nat) : Bool :=
  v.m_widgetAttributes &&& attr != 0

/-- The class `QPointF` over the coordinate type `R` standing for `qreal`. -/
structure QPointF (R : Type) where
  xp : R
  yp : R
  deriving DecidableEq, Repr

/-- The class `QSizeF`. -/
structure QSizeF (R : Type) where
  wd : R
  ht : R
  deriving DecidableEq, Repr

/-- The class `QRectF`, stored as Qt stores it: the top-left corner, a width and a height. -/
structure QRectF (R : Type) where
  xp : R
  yp : R
  w : R
  h : R
  deriving DecidableEq, Repr

/-- The method `QRectF::size`. -/
def QRectF.size {R : Type} (r : QRectF R) : QSizeF R := ⟨r.w, r.h⟩

/-- The method `QRectF::topLeft`. -/
def QRectF.topLeft {R : Type} (r : QRectF R) : QPointF R := ⟨r.xp, r.yp⟩

/-- The two comparisons of Qt the handler uses: `operator!=` on `QSizeF` and on `QPointF`
(Qt compares `qreal` coordinates with its own tolerance). -/
structure QRealCompare (R : Type) where
  sizeNe : QSizeF R → QSizeF R → Bool
  pointNe : QPointF R → QPointF R → Bool

/-- The function `qFuzzyCompare(double, double)` of Qt, on rationals:
`qAbs(p1 - p2) * 1000000000000. <= qMin(qAbs(p1), qAbs(p2))`. -/
def qFuzzyCompare (p1 p2 : ℚ) : Bool :=
  decide (|p1 - p2| * 1000000000000 ≤ min |p1| |p2|)

/-- The function `qFuzzyIsNull(double)` of Qt, on rationals: `qAbs(d) <= 0.000000000001`. -/
def qFuzzyIsNull (d : ℚ) : Bool :=
  decide (|d| ≤ 1 / 1000000000000)

/-- How Qt compares one coordinate of two `QSizeF` or two `QPointF` for equality:
`(!a || !b) ? qFuzzyIsNull(a - b) : qFuzzyCompare(a, b)`. -/
def fuzzyEqual (a b : ℚ) : Bool :=
  if a = 0 ∨ b = 0 then qFuzzyIsNull (a - b) else qFuzzyCompare a b

/-- Qt's `operator!=` on `QSizeF` and on `QPointF`, which Qt documents as a fuzzy
comparison of the coordinates; `qreal` values are rationals here (every finite `double` is
one), and the rounding inside the comparison itself is left out. -/
def QRealCompare.qt : QRealCompare ℚ :=
  { sizeNe := fun s1 s2 => !(fuzzyEqual s1.wd s2.wd && fuzzyEqual s1.ht s2.ht)
    pointNe := fun p1 p2 => !(fuzzyEqual p1.xp p2.xp && fuzzyEqual p1.yp p2.yp) }

/-- A coordinate that is a whole number of magnitude below 10^12, as every `int` is. -/
def isWhole (q : ℚ) : Prop := ∃ n : Int, q = n ∧ |n| < 1000000000000

/-- The exact comparisons, for coordinates with decidable equality. -/
def QRealCompare.exact (R : Type) [DecidableEq R] : QRealCompare R :=
  { sizeNe := fun a b => a != b, pointNe := fun a b => a != b }

/-- The event types the handler sends. -/
inductive QEventType where
  | Resize
  | Move
  deriving DecidableEq, Repr

/-- What the geometry change handler does, in program order: the call of the base class
handler, an event sent to the view through `qGuiApp->sendEvent(this, ...)`, the signal
`itemGeometryChanged`. -/
inductive GeometryEffect (R : Type) where
  | baseGeometryChanged (newGeometry oldGeometry : QRectF R)
  | sendEvent (type : QEventType)
  | itemGeometryChanged
  deriving DecidableEq, Repr

/-- Whether an effect is an event of the given type sent to the view. -/
def GeometryEffect.isSendEvent {R : Type} (type : QEventType) : GeometryEffect R → Bool
  | GeometryEffect.sendEvent t => t == type
  | _ => false

/-- Whether an effect is the emission of `itemGeometryChanged`. -/
def GeometryEffect.isItemGeometryChanged {R : Type} : GeometryEffect R → Bool
  | GeometryEffect.itemGeometryChanged => true
  | _ => false

/-- The method `View_qtquick::QQUICKITEMgeometryChanged(newGeometry, oldGeometry)`. -/
def View_qtquick.QQUICKITEMgeometryChanged {R : Type} (cmp : QRealCompare R)
    (newGeometry oldGeometry : QRectF R) : List (GeometryEffect R) :=
  [GeometryEffect.baseGeometryChanged newGeometry oldGeometry]
  ++ (if cmp.sizeNe newGeometry.size oldGeometry.size then
        [GeometryEffect.sendEvent QEventType.Resize] else [])
  ++ (if cmp.pointNe newGeometry.topLeft oldGeometry.topLeft then
        [GeometryEffect.sendEvent QEventType.Move] else [])
  ++ [GeometryEffect.itemGeometryChanged]

end Views

/-! ## Moving the mouse in tests (`tests/utils.cpp`) -/

namespace Tests

/-- The Chebyshev distance of two points: the larger of the two coordinate distances. -/
def chebyshev (a b : QPoint) : Nat :=
  max (b.xp - a.xp).natAbs (b.yp - a.yp).natAbs

/-- What `moveMouseTo` hands back: the positions passed to `tests_mouseMove`, in call
order, the answer of each of these calls, the platform state after the last call, and the
value returned. -/
structure MouseMoves (σ : Type) where
  moves : List QPoint
  answers : List Bool
  platform : σ
  result : Bool

/-- The two `if` statements at the head of the loop body of `moveMouseTo`: `globalSrc`
goes one step towards `globalDest` in x and one step in y. -/
def stepToward (globalSrc globalDest : QPoint) : QPoint :=
  let x :=
    if globalSrc.xp < globalDest.xp then globalSrc.xp + 1
    else if globalSrc.xp > globalDest.xp then globalSrc.xp - 1
    else globalSrc.xp
  let y :=
    if globalSrc.yp < globalDest.yp then globalSrc.yp + 1
    else if globalSrc.yp > globalDest.yp then globalSrc.yp - 1
    else globalSrc.yp
  ⟨x, y⟩

/-- The loop of `moveMouseTo`: `tests_mouseMove` is the simulated mouse move of the
platform, which answers whether it succeeded and changes the platform state `σ`; a move
that fails ends the helper at once. Each round brings `globalSrc` one step nearer to
`globalDest`, so the loop is a total function. -/
def moveMouseToLoop {σ : Type} (tests_mouseMove : σ → QPoint → Bool × σ) (globalDest : QPoint)
    (globalSrc : QPoint) (platform : σ) : MouseMoves σ :=
  if globalSrc ≠ globalDest then
    let globalSrc1 := stepToward globalSrc globalDest
    let r := tests_mouseMove platform globalSrc1
    if !r.1 then
      { moves := [globalSrc1], answers := [false], platform := r.2, result := true }
    else
      let rest := moveMouseToLoop tests_mouseMove globalDest globalSrc1 r.2
      { rest with moves := globalSrc1 :: rest.moves, answers := true :: rest.answers }
  else
    { moves := [], answers := [], platform := platform, result := true }
termination_by chebyshev globalSrc globalDest
decreasing_by
  have hne : globalSrc.xp ≠ globalDest.xp ∨ globalSrc.yp ≠ globalDest.yp := by
    by_contra hc
    push_neg at hc
    exact ‹globalSrc ≠ globalDest› (by cases globalSrc; cases globalDest; simp_all)
  simp only [chebyshev, stepToward]
  split_ifs <;> omega

/-- The helper `moveMouseTo(globalDest, receiver)`; `mapToGlobal` is the receiver's. -/
def moveMouseTo {σ : Type} (tests_mouseMove : σ → QPoint → Bool × σ)
    (mapToGlobal : QPoint → QPoint) (globalDest : QPoint) (platform : σ) : MouseMoves σ :=
  let globalSrc := mapToGlobal ⟨5, 5⟩
  moveMouseToLoop tests_mouseMove globalDest globalSrc platform

/-- One step of the mouse: at most 1 apart in x and in y. -/
def nearBy (p q : QPoint) : Prop :=
  (q.xp - p.xp).natAbs ≤ 1 ∧ (q.yp - p.yp).natAbs ≤ 1

/-- Calling `tests_mouseMove` on the given positions one after the other, each call on the
platform state the call before left: the answers of the calls and the state after the
last one. (The yardstick for what `moveMouseTo` does to the platform.) -/
def callMouseMoves {σ : Type} (tests_mouseMove : σ → QPoint → Bool × σ) (platform : σ) :
    List QPoint → List Bool × σ
  | [] => ([], platform)
  | p :: ps =>
    let r := tests_mouseMove platform p
    let rest := callMouseMoves tests_mouseMove r.2 ps
    (r.1 :: rest.1, rest.2)

end Tests

/-! ## Theorems -/

namespace Linter

/-- C1: with exactly one file argument (`argc == 2`) and at least one frontend, the linter
restores `argv[1]` with `RestoreOption_None`; its exit code is 0 if and only if that
restore returned true, and 2 otherwise. -/
theorem main_exitCode_one_file (frontends : List FrontendType) (restoreFromFile : Restorer)
    (argv : List String) (hf : frontends ≠ []) (hargc : argv.length = 2) :
    ((main frontends restoreFromFile argv).exitCode = 0 ↔
        restoreFromFile RestoreOption_None (argv.get ⟨1, by omega⟩) = true) ∧
    ((main frontends restoreFromFile argv).exitCode ≠ 0 →
        (main frontends restoreFromFile argv).exitCode = 2) ∧
    Effect.restoreFromFile RestoreOption_None (argv.get ⟨1, by omega⟩) ∈
        (main frontends restoreFromFile argv).effects := by
  cases frontends with
  | nil => exact absurd rfl hf
  | cons f0 rest =>
    obtain ⟨prog, file, rfl⟩ := List.length_eq_two.mp hargc
    cases hr : restoreFromFile RestoreOption_None file <;> simp [main, lint, hr]

/-- C1 witness: the QtQuick frontend and a restorer that accepts only "good.json", run on
"bad.json": the exit code is not 0, hence 2. -/
theorem main_exitCode_one_file_witness :
    [FrontendType.QtQuick] ≠ [] ∧
    ["kddockwidgets_linter", "bad.json"].length = 2 ∧
    (main [FrontendType.QtQuick] (fun _ f => f == "good.json")
        ["kddockwidgets_linter", "bad.json"]).exitCode = 2 :=
  ⟨by decide, by decide,
   (main_exitCode_one_file [FrontendType.QtQuick] (fun _ f => f == "good.json")
      ["kddockwidgets_linter", "bad.json"] (by decide) (by decide)).2.1 (by decide)⟩

/-- C2, as stated, fails: with no frontend available the linter returns -1, which is none
of 0, 1 and 2. -/
theorem main_exitCode_no_frontend :
    (main [] (fun _ _ => true) ["kddockwidgets_linter", "layout.json"]).exitCode = -1 ∧
    ¬ ((main [] (fun _ _ => true) ["kddockwidgets_linter", "layout.json"]).exitCode = 0 ∨
       (main [] (fun _ _ => true) ["kddockwidgets_linter", "layout.json"]).exitCode = 1 ∨
       (main [] (fun _ _ => true) ["kddockwidgets_linter", "layout.json"]).exitCode = 2) := by
  decide

/-- C2, amended: for every invocation, either no frontend is available and the linter
returns -1, or a frontend is available and the exit code is one of 0, 1 and 2. -/
theorem main_exitCode_range (frontends : List FrontendType) (restoreFromFile : Restorer)
    (argv : List String) :
    (frontends = [] ∧ (main frontends restoreFromFile argv).exitCode = -1) ∨
    (frontends ≠ [] ∧
      ((main frontends restoreFromFile argv).exitCode = 0 ∨
       (main frontends restoreFromFile argv).exitCode = 1 ∨
       (main frontends restoreFromFile argv).exitCode = 2)) := by
  cases frontends with
  | nil => exact Or.inl ⟨rfl, rfl⟩
  | cons f0 rest =>
    refine Or.inr ⟨by simp, ?_⟩
    by_cases h : argv.length ≠ 2
    · simp [main, h]
    · obtain ⟨prog, file, rfl⟩ := List.length_eq_two.mp (not_not.mp h)
      cases hr : restoreFromFile RestoreOption_None file <;> simp [main, lint, hr]

/-- C3: with a frontend available and an argument count other than 2, the linter exits
with 1 and none of its effects initialises the platform or attempts a restore. -/
theorem main_usage_error (frontends : List FrontendType) (restoreFromFile : Restorer)
    (argv : List String) (hf : frontends ≠ []) (hargc : argv.length ≠ 2) :
    (main frontends restoreFromFile argv).exitCode = 1 ∧
    ∀ e ∈ (main frontends restoreFromFile argv).effects,
      e.isInit = false ∧ e.isRestore = false := by
  cases frontends with
  | nil => exact absurd rfl hf
  | cons f0 rest => simp [main, hargc, Effect.isInit, Effect.isRestore]

/-- C3 witness: the QtWidgets frontend and three arguments. -/
theorem main_usage_error_witness :
    [FrontendType.QtWidgets] ≠ [] ∧
    ["kddockwidgets_linter", "a.json", "b.json"].length ≠ 2 ∧
    (main [FrontendType.QtWidgets] (fun _ _ => true)
        ["kddockwidgets_linter", "a.json", "b.json"]).exitCode = 1 :=
  ⟨by decide, by decide,
   (main_usage_error [FrontendType.QtWidgets] (fun _ _ => true)
      ["kddockwidgets_linter", "a.json", "b.json"] (by decide) (by decide)).1⟩

end Linter

namespace Views

/-- The method `setSize` leaves everything of the item but its window and size alone. -/
theorem View_qtquick.setSize_frame (hardcodedMinimumSize : QSize) (v : View_qtquick)
    (w h : Int) :
    (v.setSize hardcodedMinimumSize w h).self = v.self ∧
    (v.setSize hardcodedMinimumSize w h).parentItem = v.parentItem ∧
    (v.setSize hardcodedMinimumSize w h).qobjectParent = v.qobjectParent ∧
    (v.setSize hardcodedMinimumSize w h).x = v.x ∧
    (v.setSize hardcodedMinimumSize w h).y = v.y ∧
    (v.setSize hardcodedMinimumSize w h).kddockwidgets_min_size = v.kddockwidgets_min_size ∧
    (v.setSize hardcodedMinimumSize w h).width = w ∧
    (v.setSize hardcodedMinimumSize w h).height = h := by
  unfold View_qtquick.setSize
  cases isRootView v.toQQuickItem <;> cases v.window <;> simp
  split <;> simp

/-- C7, as stated, fails: in a `QQuickView` whose root object is item 2 (itself a child of
the content item 1), the child 3 of the root object belongs to the window and counts as a
root view, yet `parentViewFor` returns its parent. -/
theorem isRootView_not_iff_parentViewFor_none :
    (QQuickItem.mk 3 (some 2) (some 2) (some ⟨1, true, some 2, ⟨0, 0, 799, 599⟩⟩)
        0 0 100 100 none).window.isSome = true ∧
    ¬ (isRootView (QQuickItem.mk 3 (some 2) (some 2)
          (some ⟨1, true, some 2, ⟨0, 0, 799, 599⟩⟩) 0 0 100 100 none) = true ↔
       parentViewFor (QQuickItem.mk 3 (some 2) (some 2)
          (some ⟨1, true, some 2, ⟨0, 0, 799, 599⟩⟩) 0 0 100 100 none) = none) := by
  decide

/-- C7, amended: for an item that belongs to a window, `isRootView` is true if and only
if `parentViewFor` returns no parent view, or the item is the window's content item, or
the window is a `QQuickView` and the item or its parent is the view's root object. -/
theorem isRootView_iff (item : QQuickItem) (w : QQuickWindow) (hw : item.window = some w) :
    isRootView item = true ↔
      (parentViewFor item = none ∨ item.self = w.contentItem ∨
        (w.isQQuickView = true ∧
          (item.parentItem = w.rootObject ∨ some item.self = w.rootObject))) := by
  cases hp : item.parentItem with
  | none => simp [isRootView, parentViewFor, hw, hp]
  | some parent =>
    by_cases h1 : parent = w.contentItem
    · simp [isRootView, parentViewFor, hw, hp, h1]
    · by_cases h2 : item.self = w.contentItem
      · simp [isRootView, parentViewFor, hw, hp, h2]
      · simp [isRootView, parentViewFor, hw, hp, h1, h2]

/-- C7 witness: a direct child of the content item of a plain `QQuickWindow`. -/
theorem isRootView_iff_witness :
    isRootView (QQuickItem.mk 2 (some 1) (some 1) (some ⟨1, false, none, ⟨0, 0, 799, 599⟩⟩)
        0 0 100 100 none) = true ↔
      (parentViewFor (QQuickItem.mk 2 (some 1) (some 1)
          (some ⟨1, false, none, ⟨0, 0, 799, 599⟩⟩) 0 0 100 100 none) = none ∨
        2 = 1 ∨ (false = true ∧ (some 1 = (none : Option QObjectId) ∨ some 2 = none))) :=
  isRootView_iff (QQuickItem.mk 2 (some 1) (some 1) (some ⟨1, false, none, ⟨0, 0, 799, 599⟩⟩)
    0 0 100 100 none) ⟨1, false, none, ⟨0, 0, 799, 599⟩⟩ rfl

/-- Flags that contain `Qt::Window` or `Qt::Tool` are top-level flags for
`flagsAreTopLevelFlags`. -/
theorem flagsAreTopLevelFlags_of_testFlag (flags : WindowFlags)
    (h : testFlag flags Qt_Window = true ∨ testFlag flags Qt_Tool = true) :
    flagsAreTopLevelFlags flags = true := by
  have h11 : flags &&& 11 ≠ 0 := by
    intro h0
    rcases h with h | h
    · have h1 : flags &&& 1 = 1 := by
        simpa [testFlag, Qt_Window] using h
      have h2 : (flags &&& 11) &&& 1 = flags &&& 1 := by
        rw [Nat.and_assoc]
        rfl
      rw [h0, h1] at h2
      simp at h2
    · have h1 : flags &&& 11 = 11 := by
        simpa [testFlag, Qt_Tool] using h
      rw [h1] at h0
      exact absurd h0 (by decide)
  simpa [flagsAreTopLevelFlags, Qt_Window, Qt_Tool] using h11

/-- C9, as stated, fails twice. With a null parent and no window flag set,
`actualParentItem` is null although the flags are not top-level flags. And the flags
`Qt::SubWindow` contain neither `Qt::Window` nor `Qt::Tool`, yet they are top-level flags
for `flagsAreTopLevelFlags`, and a view constructed with them and the parent 4 gets no
parent item. -/
theorem actualParentItem_not_as_claimed :
    ¬ (actualParentItem none 0 = none ↔ flagsAreTopLevelFlags 0 = true) ∧
    testFlag Qt_SubWindow Qt_Window = false ∧
    testFlag Qt_SubWindow Qt_Tool = false ∧
    flagsAreTopLevelFlags Qt_SubWindow = true ∧
    (View_qtquick.construct ⟨80, 90⟩ 5 (some 4) none Qt_SubWindow).parentItem = none ∧
    (View_qtquick.construct ⟨80, 90⟩ 5 (some 4) none Qt_SubWindow).parentItem ≠ some 4 := by
  decide

/-- C9, amended: for every parent and window flags, a view constructed with flags
containing `Qt::Window` or `Qt::Tool` gets no parent item and only the `QObject` parent set
to the given parent; a view constructed with flags that share no bit with
`Qt::Window | Qt::Tool` gets the given parent as its parent item; and
`actualParentItem(parent, flags)`, which is the parent item the view gets, is null exactly
when `flagsAreTopLevelFlags(flags)` is true, that is when the flags share a bit with
`Qt::Window | Qt::Tool`, or the given parent is null. -/
theorem construct_parents (hardcodedMinimumSize : QSize) (self : QObjectId)
    (parent : Option QObjectId) (parentWindow : Option QQuickWindow) (flags : WindowFlags) :
    ((testFlag flags Qt_Window = true ∨ testFlag flags Qt_Tool = true) →
      (View_qtquick.construct hardcodedMinimumSize self parent parentWindow flags).parentItem
          = none ∧
      (View_qtquick.construct hardcodedMinimumSize self parent parentWindow flags).qobjectParent
          = parent) ∧
    (flags &&& (Qt_Window ||| Qt_Tool) = 0 →
      (View_qtquick.construct hardcodedMinimumSize self parent parentWindow flags).parentItem
          = parent) ∧
    (actualParentItem parent flags = none ↔
        (flagsAreTopLevelFlags flags = true ∨ parent = none)) ∧
    (flagsAreTopLevelFlags flags = true ↔ flags &&& (Qt_Window ||| Qt_Tool) ≠ 0) ∧
    (View_qtquick.construct hardcodedMinimumSize self parent parentWindow flags).qobjectParent
        = parent ∧
    (View_qtquick.construct hardcodedMinimumSize self parent parentWindow flags).parentItem
        = (if flagsAreTopLevelFlags flags then none else parent) ∧
    (View_qtquick.construct hardcodedMinimumSize self parent parentWindow flags).parentItem
        = actualParentItem parent flags := by
  have hframe := fun v => View_qtquick.setSize_frame hardcodedMinimumSize v 800 800
  have hq : (View_qtquick.construct hardcodedMinimumSize self parent parentWindow
      flags).qobjectParent = parent := by
    unfold View_qtquick.construct
    simp only [(hframe _).2.2.1]
    cases parent <;> cases hflags : flagsAreTopLevelFlags flags <;>
      simp [actualParentItem, hflags]
  have hp : (View_qtquick.construct hardcodedMinimumSize self parent parentWindow
      flags).parentItem = actualParentItem parent flags := by
    unfold View_qtquick.construct
    simp only [(hframe _).2.1]
    cases parent <;> cases hflags : flagsAreTopLevelFlags flags <;>
      simp [actualParentItem, hflags]
  have hmask : flagsAreTopLevelFlags flags = true ↔ flags &&& (Qt_Window ||| Qt_Tool) ≠ 0 := by
    simp [flagsAreTopLevelFlags]
  refine ⟨fun h => ⟨?_, hq⟩, fun h => ?_, ?_, hmask, hq, ?_, hp⟩
  · rw [hp]
    simp [actualParentItem, flagsAreTopLevelFlags_of_testFlag flags h]
  · have hnot : flagsAreTopLevelFlags flags = false := by
      cases hf : flagsAreTopLevelFlags flags
      · rfl
      · exact absurd h (hmask.mp hf)
    rw [hp]
    simp [actualParentItem, hnot]
  · cases parent <;> cases hflags : flagsAreTopLevelFlags flags <;>
      simp [actualParentItem, hflags]
  · rw [hp]
    rfl

/-- C9 witness: the parent 4 with the flags `Qt::Tool`, which contain `Qt::Tool`, and with
no flag at all, which shares no bit with `Qt::Window | Qt::Tool`. -/
theorem construct_parents_witness :
    ((View_qtquick.construct ⟨80, 90⟩ 5 (some 4) none Qt_Tool).parentItem = none ∧
      (View_qtquick.construct ⟨80, 90⟩ 5 (some 4) none Qt_Tool).qobjectParent = some 4) ∧
    (View_qtquick.construct ⟨80, 90⟩ 5 (some 4) none 0).parentItem = some 4 :=
  ⟨(construct_parents ⟨80, 90⟩ 5 (some 4) none Qt_Tool).1 (Or.inr (by decide)),
   (construct_parents ⟨80, 90⟩ 5 (some 4) none 0).2.1 (by decide)⟩

/-- C8, evaluated: a child view (not a root view) with no minimum size property, the
hardcoded minimum being 80 x 90, is asked for 10 x 10; its item ends up 10 x 10, smaller
than `minSize()` in both dimensions. -/
theorem setSize_below_min_is_set :
    (View_qtquick.setSize ⟨80, 90⟩
        (View_qtquick.mk (QQuickItem.mk 5 (some 4) (some 4) none 0 0 800 800 none) 0 0)
        10 10).width = 10 ∧
    (View_qtquick.setSize ⟨80, 90⟩
        (View_qtquick.mk (QQuickItem.mk 5 (some 4) (some 4) none 0 0 800 800 none) 0 0)
        10 10).height = 10 ∧
    View_qtquick.minSize ⟨80, 90⟩ (View_qtquick.setSize ⟨80, 90⟩
        (View_qtquick.mk (QQuickItem.mk 5 (some 4) (some 4) none 0 0 800 800 none) 0 0)
        10 10) = ⟨80, 90⟩ := by
  decide

/-- For every view and every hardcoded minimum, asking `setSize` for one less than the
minimum width leaves the item narrower than `minSize()`. -/
theorem View_qtquick.setSize_item_below_min (hardcodedMinimumSize : QSize) (v : View_qtquick)
    (h : Int) :
    (v.setSize hardcodedMinimumSize ((v.minSize hardcodedMinimumSize).wd - 1) h).width <
      ((v.setSize hardcodedMinimumSize ((v.minSize hardcodedMinimumSize).wd - 1) h).minSize
        hardcodedMinimumSize).wd := by
  generalize hk : (v.minSize hardcodedMinimumSize).wd - 1 = k
  have hf := View_qtquick.setSize_frame hardcodedMinimumSize v k h
  have hmin : (v.setSize hardcodedMinimumSize k h).minSize hardcodedMinimumSize =
      v.minSize hardcodedMinimumSize := by
    simp only [View_qtquick.minSize, hf.2.2.2.2.2.1]
  rw [hmin, hf.2.2.2.2.2.2.1]
  omega

/-- After `setSize` on a root view with a window, the window has the requested size
expanded to `minSize()`, so it is not smaller than `minSize()` in either dimension. -/
theorem View_qtquick.setSize_window_not_below_min (hardcodedMinimumSize : QSize)
    (v : View_qtquick) (w h : Int) (window : QQuickWindow)
    (hroot : isRootView v.toQQuickItem = true) (hwin : v.window = some window) :
    ∃ window1, (v.setSize hardcodedMinimumSize w h).window = some window1 ∧
      window1.size = (QSize.mk w h).expandedTo (v.minSize hardcodedMinimumSize) ∧
      ¬ window1.size.smallerThan (v.minSize hardcodedMinimumSize) := by
  unfold View_qtquick.setSize
  simp only [hroot, hwin, if_true]
  by_cases hs : window.size = (QSize.mk w h).expandedTo (v.minSize hardcodedMinimumSize)
  · refine ⟨window, by simp [hs, hwin], hs, ?_⟩
    rw [hs]
    simp only [QSize.smallerThan, QSize.expandedTo]
    omega
  · refine ⟨window.setGeometry (window.geometry.setSize
      ((QSize.mk w h).expandedTo (v.minSize hardcodedMinimumSize))), by simp [hs], ?_, ?_⟩
    · simp only [QQuickWindow.size, QQuickWindow.setGeometry, QRect.size, QRect.setSize,
        QRect.width, QRect.height, QSize.expandedTo]
      congr 1 <;> omega
    · simp only [QQuickWindow.size, QQuickWindow.setGeometry, QRect.size, QRect.setSize,
        QRect.width, QRect.height, QSize.expandedTo, QSize.smallerThan]
      omega

/-- Whether an item is a root view depends on its address, its parent item and the scene
of its window only. -/
theorem isRootView_congr {a b : QQuickItem} (hs : a.self = b.self)
    (hp : a.parentItem = b.parentItem)
    (hw : a.window.map QQuickWindow.scene = b.window.map QQuickWindow.scene) :
    isRootView a = isRootView b := by
  unfold isRootView
  rw [hs, hp]
  cases ha : a.window <;> cases hb : b.window <;>
    simp only [ha, hb, Option.map_some', Option.map_none', reduceCtorEq] at hw
  · rfl
  · simp only [Option.some.injEq, QQuickWindow.scene, Prod.mk.injEq] at hw
    simp only [hw.1, hw.2.1, hw.2.2]

/-- The method `setSize` does not change the scene of the view's window. -/
theorem View_qtquick.setSize_scene (hardcodedMinimumSize : QSize) (v : View_qtquick)
    (w h : Int) :
    (v.setSize hardcodedMinimumSize w h).window.map QQuickWindow.scene =
      v.window.map QQuickWindow.scene := by
  unfold View_qtquick.setSize
  cases isRootView v.toQQuickItem <;> cases hwin : v.window <;> simp [hwin]
  split <;> simp [hwin, QQuickWindow.scene, QQuickWindow.setGeometry]

/-- The method `setSize` does not change whether the view is a root view. -/
theorem View_qtquick.isRootView_setSize (hardcodedMinimumSize : QSize) (v : View_qtquick)
    (w h : Int) :
    isRootView (v.setSize hardcodedMinimumSize w h).toQQuickItem = isRootView v.toQQuickItem :=
  isRootView_congr (View_qtquick.setSize_frame hardcodedMinimumSize v w h).1
    (View_qtquick.setSize_frame hardcodedMinimumSize v w h).2.1
    (View_qtquick.setSize_scene hardcodedMinimumSize v w h)

/-- What `geometry()` reads after `move(x, y)`: the position is `(x, y)` and the size is
the size before, of the window for a root view with a window and of the item otherwise. -/
theorem View_qtquick.geometry_move (v : View_qtquick) (x y : Int) :
    (v.move x y).geometry = QRect.ofTopLeftSize ⟨x, y⟩ v.geometry.size := by
  have hsize : ∀ (p : QPoint) (s : QSize), (QRect.ofTopLeftSize p s).size = s := by
    intro p s
    simp only [QRect.ofTopLeftSize, QRect.size, QRect.width, QRect.height]
    congr 1 <;> omega
  cases hroot : isRootView v.toQQuickItem <;> cases hwin : v.window
  case true.some win =>
    have hmove : v.move x y = { v with window := some (win.setPosition x y) } := by
      simp only [View_qtquick.move, hroot, hwin]
    have hroot1 : isRootView (v.move x y).toQQuickItem = true := by
      rw [← hroot, hmove]
      exact isRootView_congr rfl rfl (by simp [hwin, QQuickWindow.scene,
        QQuickWindow.setPosition, QQuickWindow.setGeometry])
    have hwin1 : (v.move x y).window = some (win.setPosition x y) := by rw [hmove]
    simp only [View_qtquick.geometry, hroot1, hwin1, hroot, hwin]
    rfl
  all_goals
    have hmove : v.move x y =
        View_qtquick.setAttribute { v with x := x, y := y } Qt_WA_Moved true := by
      simp only [View_qtquick.move, hroot, hwin]
    have hitem : (v.move x y).toQQuickItem = { v.toQQuickItem with x := x, y := y } := by
      rw [hmove]; simp [View_qtquick.setAttribute]
    have hroot1 : isRootView (v.move x y).toQQuickItem = isRootView v.toQQuickItem := by
      rw [hitem]
      exact isRootView_congr rfl rfl rfl
    have hwin1 : (v.move x y).window = v.window := by rw [hitem]
    have hx : (v.move x y).x = x := by rw [hitem]
    have hy : (v.move x y).y = y := by rw [hitem]
    have hwd : (v.move x y).width = v.width := by rw [hitem]
    have hht : (v.move x y).height = v.height := by rw [hitem]
    simp only [View_qtquick.geometry, hroot1, hwin1, hroot, hwin, hx, hy, hwd, hht, hsize]

/-- What `geometry()` reads after `setSize(w, h)` with `(w, h)` at least `minSize()`: the
size is `(w, h)`. -/
theorem View_qtquick.geometry_size_setSize (hardcodedMinimumSize : QSize) (v : View_qtquick)
    (w h : Int) (hmin : ¬ (QSize.mk w h).smallerThan (v.minSize hardcodedMinimumSize)) :
    (v.setSize hardcodedMinimumSize w h).geometry.size = ⟨w, h⟩ := by
  have hf := View_qtquick.setSize_frame hardcodedMinimumSize v w h
  have hroot1 := View_qtquick.isRootView_setSize hardcodedMinimumSize v w h
  have hsize : ∀ (p : QPoint) (s : QSize), (QRect.ofTopLeftSize p s).size = s := by
    intro p s
    simp only [QRect.ofTopLeftSize, QRect.size, QRect.width, QRect.height]
    congr 1 <;> omega
  cases hroot : isRootView v.toQQuickItem <;> cases hwin : v.window
  case true.some win =>
    obtain ⟨win1, hwin1, hsz, _⟩ :=
      View_qtquick.setSize_window_not_below_min hardcodedMinimumSize v w h win hroot hwin
    simp only [View_qtquick.geometry, hroot1, hroot, hwin1]
    have hexp : (QSize.mk w h).expandedTo (v.minSize hardcodedMinimumSize) = ⟨w, h⟩ := by
      simp only [QSize.smallerThan] at hmin
      simp only [QSize.expandedTo]
      congr 1 <;> omega
    rw [← hexp, ← hsz]
    rfl
  case true.none =>
    have hwin1 : (v.setSize hardcodedMinimumSize w h).window = none := by
      simp [View_qtquick.setSize, hroot, hwin]
    simp only [View_qtquick.geometry, hroot1, hroot, hwin1, hf.2.2.2.2.2.2, hsize]
  all_goals
    simp only [View_qtquick.geometry, hroot1, hroot, hf.2.2.2.2.2.2, hsize]

/-- C10: for every view and every rectangle whose size is at least `minSize()` in both
dimensions, `geometry()` right after `setGeometry(rect)` is `rect`; this covers a view
that is not a root view (item position and size) and a root view with a window (the
window's geometry). -/
theorem View_qtquick.geometry_setGeometry (hardcodedMinimumSize : QSize) (v : View_qtquick)
    (rect : QRect) (hmin : ¬ rect.size.smallerThan (v.minSize hardcodedMinimumSize)) :
    (v.setGeometry hardcodedMinimumSize rect).geometry = rect := by
  unfold View_qtquick.setGeometry
  rw [View_qtquick.geometry_move,
    View_qtquick.geometry_size_setSize hardcodedMinimumSize v rect.width rect.height hmin]
  obtain ⟨x1, y1, x2, y2⟩ := rect
  simp only [QRect.ofTopLeftSize, QRect.topLeft, QRect.width, QRect.height, QRect.mk.injEq,
    true_and]
  constructor <;> omega

/-- C10 witness: a root view in a 640 x 480 window at the origin, hardcoded minimum
80 x 90, given the rectangle with corners (30, 40) and (229, 339), which is 200 x 300. -/
theorem View_qtquick.geometry_setGeometry_witness :
    ¬ (QRect.mk 30 40 229 339).size.smallerThan
        (View_qtquick.minSize ⟨80, 90⟩
          (View_qtquick.mk (QQuickItem.mk 2 (some 1) (some 1)
            (some ⟨1, false, none, ⟨0, 0, 639, 479⟩⟩) 0 0 800 800 none) 0 0)) ∧
    (View_qtquick.setGeometry ⟨80, 90⟩
        (View_qtquick.mk (QQuickItem.mk 2 (some 1) (some 1)
          (some ⟨1, false, none, ⟨0, 0, 639, 479⟩⟩) 0 0 800 800 none) 0 0)
        ⟨30, 40, 229, 339⟩).geometry = ⟨30, 40, 229, 339⟩ :=
  ⟨by decide,
   View_qtquick.geometry_setGeometry ⟨80, 90⟩
     (View_qtquick.mk (QQuickItem.mk 2 (some 1) (some 1)
       (some ⟨1, false, none, ⟨0, 0, 639, 479⟩⟩) 0 0 800 800 none) 0 0)
     ⟨30, 40, 229, 339⟩ (by decide)⟩

/-- C6, evaluated: view 10 and then view 20 redirect the mouse events of source 1, the
event loop deletes the replaced redirector, and view 20 redirects source 1 once more.
After the deletion the redirector 101 of view 20 is still installed on the source but the
registry returns null for it; after the last call two redirectors, 102 and 101, are
installed on the source. -/
theorem redirector_registry_lost_after_deferred_delete :
    ((World.init 100).run [RedirectorStep.redirectMouseEvents 10 1,
        RedirectorStep.redirectMouseEvents 20 1,
        RedirectorStep.processDeferredDeletes]).installedOn 1 = [101] ∧
    ((World.init 100).run [RedirectorStep.redirectMouseEvents 10 1,
        RedirectorStep.redirectMouseEvents 20 1,
        RedirectorStep.processDeferredDeletes]).redirectorForSource 1 = none ∧
    ((World.init 100).run [RedirectorStep.redirectMouseEvents 10 1,
        RedirectorStep.redirectMouseEvents 20 1,
        RedirectorStep.processDeferredDeletes,
        RedirectorStep.redirectMouseEvents 20 1]).installedOn 1 = [102, 101] := by
  decide

end Views

namespace Tests

/-- C5, evaluated: on a layout whose `checkSanity` answers false, `createMainWindow(docks)`
with one descriptor calls `checkSanity` once, gets false, and returns normally all the
same; `nestDockWidget` on the same layout is aborted by its assertion. -/
theorem createMainWindow_returns_on_insane_layout :
    (∃ st, createMainWindow (toyEngine false) 1 [⟨Location.Location_OnLeft, -1, none, ()⟩]
        = Outcome.returned st ∧ st.sanity = [false] ∧ st.m = ["0-1"]) ∧
    nestDockWidget (toyEngine false) "dock" [] none Location.Location_OnLeft
        = Outcome.aborted "dropArea->checkSanity()" :=
  ⟨⟨_, rfl, rfl, by decide⟩, rfl⟩

/-- The helper `nestDockWidget` returns only if `checkSanity` answered true on the drop
area after `addWidget`. -/
theorem nestDockWidget_returns_only_if_sane {MW Dock Opt : Type} (e : Engine MW Dock Opt)
    (dock : Dock) (dropArea : MW) (relativeTo : Option Dock) (location : Location)
    (r : MW × Bool) (hr : nestDockWidget e dock dropArea relativeTo location
      = Outcome.returned r) :
    r.1 = e.addWidget dropArea dock location relativeTo ∧ e.checkSanity r.1 = true ∧
      r.2 = true := by
  unfold nestDockWidget Q_ASSERT at hr
  cases hs : e.checkSanity (e.addWidget dropArea dock location relativeTo) <;>
    simp [hs] at hr
  subst hr
  exact ⟨rfl, hs, rfl⟩

/-- For every engine and every list of descriptors that dock relative to nothing,
`createMainWindow(docks)` returns, whatever `checkSanity` answers. -/
theorem createMainWindowLoop_returns {MW Dock Opt : Type} (e : Engine MW Dock Opt)
    (count : Nat) (todo : List (DockDescriptor Dock Opt))
    (hrel : ∀ d ∈ todo, d.relativeToIndex = -1) (i : Nat) (st : Helped MW Dock Opt) :
    ∃ st1, createMainWindowLoop e count todo i st = Outcome.returned st1 ∧
      st1.sanity.length = st.sanity.length + todo.length := by
  induction todo generalizing i st with
  | nil => exact ⟨st, rfl, rfl⟩
  | cons desc todo ih =>
    have hd : desc.relativeToIndex = -1 := hrel desc (List.mem_cons_self _ _)
    have ht : ∀ d ∈ todo, d.relativeToIndex = -1 :=
      fun d hdm => hrel d (List.mem_cons_of_mem _ hdm)
    unfold createMainWindowLoop
    simp only [hd, ne_eq, not_true_eq_false, if_false]
    refine Exists.imp (fun st1 h => ⟨h.1, ?_⟩) (ih ht (i + 1) _)
    rw [h.2]
    simp only [List.length_append, List.length_cons, List.length_nil]
    omega

end Tests

namespace Views

/-- C11, evaluated: for every view and every prior attribute state, `testAttribute` of
`Qt::WA_Disabled`, whose enumerator value is 0, returns false right after
`setAttribute(Qt::WA_Disabled, true)`. -/
theorem testAttribute_WA_Disabled_after_set (v : View_qtquick) :
    (v.setAttribute Qt_WA_Disabled true).testAttribute Qt_WA_Disabled = false := by
  simp [View_qtquick.setAttribute, View_qtquick.testAttribute, Qt_WA_Disabled]

/-- The attributes share bits: on a view with no attribute set, setting `Qt::WA_Moved`
(43) makes `testAttribute` true for `Qt::WA_UnderMouse` (1) as well. -/
theorem testAttribute_aliases :
    ((View_qtquick.mk (QQuickItem.mk 5 (some 4) (some 4) none 0 0 800 800 none) 0 0).setAttribute
      Qt_WA_Moved true).testAttribute 1 = true := by
  decide

/-- For every attribute whose enumerator value is not 0, `testAttribute` returns true
right after `setAttribute(attr, true)`. -/
theorem testAttribute_setAttribute_true (v : View_qtquick) (attr : Nat) (hattr : attr ≠ 0) :
    (v.setAttribute attr true).testAttribute attr = true := by
  have hbits : (v.m_widgetAttributes ||| attr) &&& attr = attr := by
    apply Nat.eq_of_testBit_eq
    intro i
    simp only [Nat.testBit_and, Nat.testBit_or]
    cases v.m_widgetAttributes.testBit i <;> cases attr.testBit i <;> rfl
  simp [View_qtquick.setAttribute, View_qtquick.testAttribute, hbits, hattr]

/-- For every attribute, `testAttribute` returns false right after
`setAttribute(attr, false)`. -/
theorem testAttribute_setAttribute_false (v : View_qtquick) (attr : Nat) :
    (v.setAttribute attr false).testAttribute attr = false := by
  have hbits : (v.m_widgetAttributes ^^^ (v.m_widgetAttributes &&& attr)) &&& attr = 0 := by
    apply Nat.eq_of_testBit_eq
    intro i
    simp only [Nat.testBit_and, Nat.testBit_xor, Nat.zero_testBit]
    cases v.m_widgetAttributes.testBit i <;> cases attr.testBit i <;> rfl
  simp [View_qtquick.setAttribute, View_qtquick.testAttribute, hbits]

/-- What the handler sends, whatever the two comparisons are: a Resize event exactly when
the size comparison answers true, a Move event exactly when the point comparison answers
true, each at most once, and `itemGeometryChanged` exactly once. -/
theorem QQUICKITEMgeometryChanged_sends {R : Type} (cmp : QRealCompare R)
    (newGeometry oldGeometry : QRectF R) :
    (GeometryEffect.sendEvent QEventType.Resize ∈
        View_qtquick.QQUICKITEMgeometryChanged cmp newGeometry oldGeometry ↔
      cmp.sizeNe newGeometry.size oldGeometry.size = true) ∧
    (GeometryEffect.sendEvent QEventType.Move ∈
        View_qtquick.QQUICKITEMgeometryChanged cmp newGeometry oldGeometry ↔
      cmp.pointNe newGeometry.topLeft oldGeometry.topLeft = true) ∧
    ((View_qtquick.QQUICKITEMgeometryChanged cmp newGeometry oldGeometry).filter
        (GeometryEffect.isSendEvent QEventType.Resize)).length ≤ 1 ∧
    ((View_qtquick.QQUICKITEMgeometryChanged cmp newGeometry oldGeometry).filter
        (GeometryEffect.isSendEvent QEventType.Move)).length ≤ 1 ∧
    ((View_qtquick.QQUICKITEMgeometryChanged cmp newGeometry oldGeometry).filter
        GeometryEffect.isItemGeometryChanged).length = 1 := by
  unfold View_qtquick.QQUICKITEMgeometryChanged
  cases cmp.sizeNe newGeometry.size oldGeometry.size <;>
    cases cmp.pointNe newGeometry.topLeft oldGeometry.topLeft <;>
    simp [GeometryEffect.isSendEvent, GeometryEffect.isItemGeometryChanged]

/-- With exact comparisons the handler sends a Resize event exactly when the two sizes
differ and a Move event exactly when the two top-left points differ. -/
theorem QQUICKITEMgeometryChanged_exact {R : Type} [DecidableEq R]
    (newGeometry oldGeometry : QRectF R) :
    (GeometryEffect.sendEvent QEventType.Resize ∈
        View_qtquick.QQUICKITEMgeometryChanged (QRealCompare.exact R) newGeometry oldGeometry ↔
      newGeometry.size ≠ oldGeometry.size) ∧
    (GeometryEffect.sendEvent QEventType.Move ∈
        View_qtquick.QQUICKITEMgeometryChanged (QRealCompare.exact R) newGeometry oldGeometry ↔
      newGeometry.topLeft ≠ oldGeometry.topLeft) := by
  have h := QQUICKITEMgeometryChanged_sends (QRealCompare.exact R) newGeometry oldGeometry
  refine ⟨h.1.trans ?_, h.2.1.trans ?_⟩ <;> simp [QRealCompare.exact]

/-- Qt's fuzzy comparison finds every coordinate equal to itself. -/
theorem fuzzyEqual_self (a : ℚ) : fuzzyEqual a a = true := by
  unfold fuzzyEqual qFuzzyIsNull qFuzzyCompare
  split <;> simp

/-- On whole numbers of magnitude below 10^12 Qt's fuzzy comparison is equality. -/
theorem fuzzyEqual_whole (a b : ℚ) (ha : isWhole a) (hb : isWhole b) :
    fuzzyEqual a b = true ↔ a = b := by
  constructor
  · intro h
    obtain ⟨m, rfl, hm⟩ := ha
    obtain ⟨n, rfl, _⟩ := hb
    by_contra hne
    have hmn : m ≠ n := fun h => hne (by rw [h])
    have hd : (1 : ℚ) ≤ |(m : ℚ) - n| := by
      have : (1 : Int) ≤ |m - n| := Int.one_le_abs (sub_ne_zero.mpr hmn)
      exact_mod_cast this
    unfold fuzzyEqual qFuzzyIsNull qFuzzyCompare at h
    split at h
    · simp only [decide_eq_true_eq] at h
      have : (1 : ℚ) / 1000000000000 < 1 := by norm_num
      linarith
    · simp only [decide_eq_true_eq] at h
      have hm1 : |(m : ℚ)| < 1000000000000 := by exact_mod_cast hm
      have hmin : min |(m : ℚ)| |(n : ℚ)| ≤ |(m : ℚ)| := min_le_left _ _
      nlinarith
  · rintro rfl
    exact fuzzyEqual_self a

/-- C12, as stated, fails: Qt's `operator!=` on `QSizeF` and `QPointF` is a fuzzy
comparison. When the width goes from 100 to 100 + 2^-46 (the next `double` after 100) the
two sizes differ, yet no Resize event is sent; when the x coordinate does, the two top-left
points differ, yet no Move event is sent. -/
theorem geometryChanged_silent_on_tiny_change :
    (QRectF.mk (0 : ℚ) 0 (100 + 1 / 70368744177664) 100).size ≠
      (QRectF.mk (0 : ℚ) 0 100 100).size ∧
    GeometryEffect.sendEvent QEventType.Resize ∉
      View_qtquick.QQUICKITEMgeometryChanged QRealCompare.qt
        ⟨0, 0, 100 + 1 / 70368744177664, 100⟩ ⟨0, 0, 100, 100⟩ ∧
    (QRectF.mk (100 + 1 / 70368744177664 : ℚ) 0 100 100).topLeft ≠
      (QRectF.mk (100 : ℚ) 0 100 100).topLeft ∧
    GeometryEffect.sendEvent QEventType.Move ∉
      View_qtquick.QQUICKITEMgeometryChanged QRealCompare.qt
        ⟨100 + 1 / 70368744177664, 0, 100, 100⟩ ⟨100, 0, 100, 100⟩ := by
  refine ⟨by simp [QRectF.size], ?_, by simp [QRectF.topLeft], ?_⟩
  · simp [View_qtquick.QQUICKITEMgeometryChanged, QRealCompare.qt, QRectF.size, QRectF.topLeft,
      fuzzyEqual, qFuzzyCompare, qFuzzyIsNull]
    norm_num [abs_of_pos]
  · simp [View_qtquick.QQUICKITEMgeometryChanged, QRealCompare.qt, QRectF.size, QRectF.topLeft,
      fuzzyEqual, qFuzzyCompare, qFuzzyIsNull]
    norm_num [abs_of_pos]

/-- C12, amended: on a geometry change from `oldGeometry` to `newGeometry`, with Qt's
fuzzy `operator!=`, the handler sends a Resize event to the view if and only if the widths
or the heights are not fuzzily equal, and a Move event if and only if the x or the y
coordinates of the top-left points are not; so an event is sent only when the two sizes
(top-left points) differ, and whenever they differ and the coordinates compared are whole
numbers of magnitude below 10^12; each event is sent at most once, and
`itemGeometryChanged` is emitted exactly once in every case. -/
theorem QQUICKITEMgeometryChanged_events (newGeometry oldGeometry : QRectF ℚ) :
    (GeometryEffect.sendEvent QEventType.Resize ∈
        View_qtquick.QQUICKITEMgeometryChanged QRealCompare.qt newGeometry oldGeometry ↔
      ¬ (fuzzyEqual newGeometry.w oldGeometry.w = true ∧
         fuzzyEqual newGeometry.h oldGeometry.h = true)) ∧
    (GeometryEffect.sendEvent QEventType.Move ∈
        View_qtquick.QQUICKITEMgeometryChanged QRealCompare.qt newGeometry oldGeometry ↔
      ¬ (fuzzyEqual newGeometry.xp oldGeometry.xp = true ∧
         fuzzyEqual newGeometry.yp oldGeometry.yp = true)) ∧
    (GeometryEffect.sendEvent QEventType.Resize ∈
        View_qtquick.QQUICKITEMgeometryChanged QRealCompare.qt newGeometry oldGeometry →
      newGeometry.size ≠ oldGeometry.size) ∧
    (GeometryEffect.sendEvent QEventType.Move ∈
        View_qtquick.QQUICKITEMgeometryChanged QRealCompare.qt newGeometry oldGeometry →
      newGeometry.topLeft ≠ oldGeometry.topLeft) ∧
    (isWhole newGeometry.w ∧ isWhole newGeometry.h ∧
        isWhole oldGeometry.w ∧ isWhole oldGeometry.h →
      (GeometryEffect.sendEvent QEventType.Resize ∈
          View_qtquick.QQUICKITEMgeometryChanged QRealCompare.qt newGeometry oldGeometry ↔
        newGeometry.size ≠ oldGeometry.size)) ∧
    (isWhole newGeometry.xp ∧ isWhole newGeometry.yp ∧
        isWhole oldGeometry.xp ∧ isWhole oldGeometry.yp →
      (GeometryEffect.sendEvent QEventType.Move ∈
          View_qtquick.QQUICKITEMgeometryChanged QRealCompare.qt newGeometry oldGeometry ↔
        newGeometry.topLeft ≠ oldGeometry.topLeft)) ∧
    ((View_qtquick.QQUICKITEMgeometryChanged QRealCompare.qt newGeometry oldGeometry).filter
        (GeometryEffect.isSendEvent QEventType.Resize)).length ≤ 1 ∧
    ((View_qtquick.QQUICKITEMgeometryChanged QRealCompare.qt newGeometry oldGeometry).filter
        (GeometryEffect.isSendEvent QEventType.Move)).length ≤ 1 ∧
    ((View_qtquick.QQUICKITEMgeometryChanged QRealCompare.qt newGeometry oldGeometry).filter
        GeometryEffect.isItemGeometryChanged).length = 1 := by
  obtain ⟨hresize, hmove, hr1, hm1, hsig⟩ :=
    QQUICKITEMgeometryChanged_sends QRealCompare.qt newGeometry oldGeometry
  have hR : GeometryEffect.sendEvent QEventType.Resize ∈
      View_qtquick.QQUICKITEMgeometryChanged QRealCompare.qt newGeometry oldGeometry ↔
      ¬ (fuzzyEqual newGeometry.w oldGeometry.w = true ∧
         fuzzyEqual newGeometry.h oldGeometry.h = true) := by
    rw [hresize]
    simp only [QRealCompare.qt, QRectF.size]
    cases fuzzyEqual newGeometry.w oldGeometry.w <;>
      cases fuzzyEqual newGeometry.h oldGeometry.h <;> simp
  have hM : GeometryEffect.sendEvent QEventType.Move ∈
      View_qtquick.QQUICKITEMgeometryChanged QRealCompare.qt newGeometry oldGeometry ↔
      ¬ (fuzzyEqual newGeometry.xp oldGeometry.xp = true ∧
         fuzzyEqual newGeometry.yp oldGeometry.yp = true) := by
    rw [hmove]
    simp only [QRealCompare.qt, QRectF.topLeft]
    cases fuzzyEqual newGeometry.xp oldGeometry.xp <;>
      cases fuzzyEqual newGeometry.yp oldGeometry.yp <;> simp
  have hsize : newGeometry.size ≠ oldGeometry.size ↔
      ¬ (newGeometry.w = oldGeometry.w ∧ newGeometry.h = oldGeometry.h) := by
    simp [QRectF.size]
  have hpoint : newGeometry.topLeft ≠ oldGeometry.topLeft ↔
      ¬ (newGeometry.xp = oldGeometry.xp ∧ newGeometry.yp = oldGeometry.yp) := by
    simp [QRectF.topLeft]
  refine ⟨hR, hM, ?_, ?_, ?_, ?_, hr1, hm1, hsig⟩
  · intro h
    rw [hsize]
    rintro ⟨hw, hh⟩
    exact hR.mp h ⟨by rw [hw]; exact fuzzyEqual_self _, by rw [hh]; exact fuzzyEqual_self _⟩
  · intro h
    rw [hpoint]
    rintro ⟨hx, hy⟩
    exact hM.mp h ⟨by rw [hx]; exact fuzzyEqual_self _, by rw [hy]; exact fuzzyEqual_self _⟩
  · rintro ⟨h1, h2, h3, h4⟩
    rw [hR, hsize, fuzzyEqual_whole _ _ h1 h3, fuzzyEqual_whole _ _ h2 h4]
  · rintro ⟨h1, h2, h3, h4⟩
    rw [hM, hpoint, fuzzyEqual_whole _ _ h1 h3, fuzzyEqual_whole _ _ h2 h4]

/-- C12 witness: the geometry goes from 100 x 100 at (10, 20) to 200 x 100 at the same
point, all whole numbers: the sizes differ, so a Resize event is sent. -/
theorem QQUICKITEMgeometryChanged_events_witness :
    GeometryEffect.sendEvent QEventType.Resize ∈
      View_qtquick.QQUICKITEMgeometryChanged QRealCompare.qt
        ⟨10, 20, 200, 100⟩ ⟨10, 20, 100, 100⟩ :=
  ((QQUICKITEMgeometryChanged_events ⟨10, 20, 200, 100⟩ ⟨10, 20, 100, 100⟩).2.2.2.2.1
    ⟨⟨200, by norm_num, by norm_num⟩, ⟨100, by norm_num, by norm_num⟩,
     ⟨100, by norm_num, by norm_num⟩, ⟨100, by norm_num, by norm_num⟩⟩).mpr
    (by simp [QRectF.size])

end Views

namespace Tests

/-- Two points are at distance 0 exactly when they are equal. -/
theorem chebyshev_eq_zero_iff (a b : QPoint) : chebyshev a b = 0 ↔ a = b := by
  obtain ⟨ax, ay⟩ := a
  obtain ⟨bx, by_⟩ := b
  simp only [chebyshev, QPoint.mk.injEq]
  omega

/-- A step towards a different destination brings the position exactly 1 nearer. -/
theorem chebyshev_stepToward (src dest : QPoint) (hne : src ≠ dest) :
    chebyshev (stepToward src dest) dest + 1 = chebyshev src dest := by
  have hxy : src.xp ≠ dest.xp ∨ src.yp ≠ dest.yp := by
    by_contra hc
    push_neg at hc
    exact hne (by cases src; cases dest; simp_all)
  simp only [chebyshev, stepToward]
  split_ifs <;> omega

/-- A step changes each coordinate by at most 1. -/
theorem nearBy_stepToward (src dest : QPoint) : nearBy src (stepToward src dest) := by
  simp only [nearBy, stepToward]
  constructor <;> split_ifs <;> omega

/-- The loop at the destination: no mouse move. -/
theorem moveMouseToLoop_at_dest {σ : Type} (tests_mouseMove : σ → QPoint → Bool × σ)
    (dest : QPoint) (platform : σ) :
    moveMouseToLoop tests_mouseMove dest dest platform =
      { moves := [], answers := [], platform := platform, result := true } := by
  rw [moveMouseToLoop]
  simp

/-- The loop away from the destination, the mouse move failing: one move, then the end. -/
theorem moveMouseToLoop_fail {σ : Type} (tests_mouseMove : σ → QPoint → Bool × σ)
    (dest src : QPoint) (platform : σ) (hne : src ≠ dest)
    (hfail : (tests_mouseMove platform (stepToward src dest)).1 = false) :
    moveMouseToLoop tests_mouseMove dest src platform =
      { moves := [stepToward src dest], answers := [false],
        platform := (tests_mouseMove platform (stepToward src dest)).2, result := true } := by
  rw [moveMouseToLoop]
  simp [hne, hfail]

/-- The loop away from the destination, the mouse move succeeding: one move, then the
loop from the new position. -/
theorem moveMouseToLoop_ok {σ : Type} (tests_mouseMove : σ → QPoint → Bool × σ)
    (dest src : QPoint) (platform : σ) (hne : src ≠ dest)
    (hok : (tests_mouseMove platform (stepToward src dest)).1 = true) :
    moveMouseToLoop tests_mouseMove dest src platform =
      { moveMouseToLoop tests_mouseMove dest (stepToward src dest)
          (tests_mouseMove platform (stepToward src dest)).2 with
        moves := stepToward src dest ::
          (moveMouseToLoop tests_mouseMove dest (stepToward src dest)
            (tests_mouseMove platform (stepToward src dest)).2).moves,
        answers := true ::
          (moveMouseToLoop tests_mouseMove dest (stepToward src dest)
            (tests_mouseMove platform (stepToward src dest)).2).answers } := by
  rw [moveMouseToLoop]
  simp [hne, hok]

/-- What the loop does from any position `src` at distance `n` of the destination. -/
theorem moveMouseToLoop_spec {σ : Type} (tests_mouseMove : σ → QPoint → Bool × σ)
    (dest : QPoint) (n : Nat) :
    ∀ (src : QPoint) (platform : σ), chebyshev src dest = n →
      (moveMouseToLoop tests_mouseMove dest src platform).result = true ∧
      (moveMouseToLoop tests_mouseMove dest src platform).answers =
        (callMouseMoves tests_mouseMove platform
          (moveMouseToLoop tests_mouseMove dest src platform).moves).1 ∧
      (moveMouseToLoop tests_mouseMove dest src platform).platform =
        (callMouseMoves tests_mouseMove platform
          (moveMouseToLoop tests_mouseMove dest src platform).moves).2 ∧
      (∀ b ∈ (moveMouseToLoop tests_mouseMove dest src platform).answers.dropLast, b = true) ∧
      (moveMouseToLoop tests_mouseMove dest src platform).moves.length ≤ n ∧
      List.Chain nearBy src (moveMouseToLoop tests_mouseMove dest src platform).moves ∧
      ((∀ b ∈ (moveMouseToLoop tests_mouseMove dest src platform).answers, b = true) →
        (moveMouseToLoop tests_mouseMove dest src platform).moves.length = n ∧
        (src ≠ dest →
          (moveMouseToLoop tests_mouseMove dest src platform).moves.getLast? = some dest)) := by
  induction n with
  | zero =>
    intro src platform hn
    have hsrc : src = dest := (chebyshev_eq_zero_iff src dest).mp hn
    subst hsrc
    rw [moveMouseToLoop_at_dest]
    simp [callMouseMoves]
  | succ n ih =>
    intro src platform hn
    have hne : src ≠ dest := by
      intro h
      rw [(chebyshev_eq_zero_iff src dest).mpr h] at hn
      omega
    have hstep : chebyshev (stepToward src dest) dest = n := by
      have := chebyshev_stepToward src dest hne
      omega
    have hnear := nearBy_stepToward src dest
    cases hans : (tests_mouseMove platform (stepToward src dest)).1 with
    | false =>
      rw [moveMouseToLoop_fail tests_mouseMove dest src platform hne hans]
      refine ⟨rfl, by simp [callMouseMoves, hans], by simp [callMouseMoves], by simp,
        by simp, List.Chain.cons hnear List.Chain.nil, ?_⟩
      intro hall
      exact absurd (hall false (by simp)) (by simp)
    | true =>
      obtain ⟨hres, hanswers, hplatform, hearly, hlen, hchain, hcond⟩ :=
        ih (stepToward src dest) (tests_mouseMove platform (stepToward src dest)).2 hstep
      rw [moveMouseToLoop_ok tests_mouseMove dest src platform hne hans]
      refine ⟨hres, ?_, ?_, ?_, by simp only [List.length_cons]; omega,
        List.Chain.cons hnear hchain, ?_⟩
      · show true :: _ = _
        simp only [callMouseMoves, hans]
        rw [← hanswers]
      · show _ = (callMouseMoves tests_mouseMove platform (stepToward src dest :: _)).2
        simp only [callMouseMoves]
        exact hplatform
      · show ∀ b ∈ (true :: (moveMouseToLoop tests_mouseMove dest (stepToward src dest)
            (tests_mouseMove platform (stepToward src dest)).2).answers).dropLast, b = true
        intro b hb
        cases has : (moveMouseToLoop tests_mouseMove dest (stepToward src dest)
            (tests_mouseMove platform (stepToward src dest)).2).answers with
        | nil => rw [has] at hb; simp at hb
        | cons a as =>
          rw [has] at hb hearly
          simp only [List.dropLast_cons₂, List.mem_cons] at hb
          rcases hb with hb | hb
          · exact hb
          · exact hearly b hb
      · intro hall
        have hrest : ∀ b ∈ (moveMouseToLoop tests_mouseMove dest (stepToward src dest)
            (tests_mouseMove platform (stepToward src dest)).2).answers, b = true :=
          fun b hb => hall b (List.mem_cons_of_mem _ hb)
        obtain ⟨hlen1, hlast⟩ := hcond hrest
        refine ⟨by simp only [List.length_cons]; omega, fun _ => ?_⟩
        by_cases hd : stepToward src dest = dest
        · have h0 : (moveMouseToLoop tests_mouseMove dest (stepToward src dest)
              (tests_mouseMove platform (stepToward src dest)).2).moves = [] := by
            rw [hd, moveMouseToLoop_at_dest]
          show (stepToward src dest :: (moveMouseToLoop tests_mouseMove dest
            (stepToward src dest)
            (tests_mouseMove platform (stepToward src dest)).2).moves).getLast? = some dest
          rw [h0, List.getLast?_singleton, hd]
        · have hl := hlast hd
          cases hm : (moveMouseToLoop tests_mouseMove dest (stepToward src dest)
              (tests_mouseMove platform (stepToward src dest)).2).moves with
          | nil => rw [hm] at hl; simp at hl
          | cons p ps =>
            rw [hm] at hl
            simp only [List.getLast?_cons_cons]
            exact hl

/-- C13: from every start point `s` (the receiver's local (5, 5) mapped to global) and
for every destination `d`, `moveMouseTo` terminates and returns true. What it does to the
platform is exactly to call `tests_mouseMove` on the positions `moves`, in order: the
answers and the final platform state are those of these calls, and only the last call can
have failed (a failed move ends the helper). There are at most
max(|d.x - s.x|, |d.y - s.y|) moves, each at most 1 away from the previous position (the
first from `s`) in x and in y, and none when `s` equals `d`. When every one of these
simulated mouse moves succeeded, there are exactly max(|d.x - s.x|, |d.y - s.y|) moves and
the last one is at `d`. -/
theorem moveMouseTo_moves {σ : Type} (tests_mouseMove : σ → QPoint → Bool × σ)
    (mapToGlobal : QPoint → QPoint) (d : QPoint) (platform : σ) :
    (moveMouseTo tests_mouseMove mapToGlobal d platform).result = true ∧
    (moveMouseTo tests_mouseMove mapToGlobal d platform).answers =
      (callMouseMoves tests_mouseMove platform
        (moveMouseTo tests_mouseMove mapToGlobal d platform).moves).1 ∧
    (moveMouseTo tests_mouseMove mapToGlobal d platform).platform =
      (callMouseMoves tests_mouseMove platform
        (moveMouseTo tests_mouseMove mapToGlobal d platform).moves).2 ∧
    (∀ b ∈ (moveMouseTo tests_mouseMove mapToGlobal d platform).answers.dropLast, b = true) ∧
    (moveMouseTo tests_mouseMove mapToGlobal d platform).moves.length ≤
      max (d.xp - (mapToGlobal ⟨5, 5⟩).xp).natAbs (d.yp - (mapToGlobal ⟨5, 5⟩).yp).natAbs ∧
    List.Chain nearBy (mapToGlobal ⟨5, 5⟩)
      (moveMouseTo tests_mouseMove mapToGlobal d platform).moves ∧
    (mapToGlobal ⟨5, 5⟩ = d → (moveMouseTo tests_mouseMove mapToGlobal d platform).moves = []) ∧
    ((∀ b ∈ (callMouseMoves tests_mouseMove platform
        (moveMouseTo tests_mouseMove mapToGlobal d platform).moves).1, b = true) →
      (moveMouseTo tests_mouseMove mapToGlobal d platform).moves.length =
        max (d.xp - (mapToGlobal ⟨5, 5⟩).xp).natAbs (d.yp - (mapToGlobal ⟨5, 5⟩).yp).natAbs ∧
      (mapToGlobal ⟨5, 5⟩ ≠ d →
        (moveMouseTo tests_mouseMove mapToGlobal d platform).moves.getLast? = some d)) := by
  obtain ⟨hres, hanswers, hplatform, hearly, hlen, hchain, hcond⟩ :=
    moveMouseToLoop_spec tests_mouseMove d (chebyshev (mapToGlobal ⟨5, 5⟩) d)
      (mapToGlobal ⟨5, 5⟩) platform rfl
  refine ⟨hres, hanswers, hplatform, hearly, hlen, hchain, ?_, ?_⟩
  · intro hsd
    simp only [moveMouseTo, hsd, moveMouseToLoop_at_dest]
  · intro hall
    exact hcond (by rw [hanswers]; exact hall)

/-- C13 witness: the receiver sits at (10, 20), so the start is (15, 25); the destination is
(18, 23); the platform counts the mouse moves it is asked for and every one succeeds: three
moves, the last at the destination, and the platform has counted three. -/
theorem moveMouseTo_moves_witness :
    (moveMouseTo (fun (st : Nat) _ => (true, st + 1)) (fun p => ⟨p.xp + 10, p.yp + 20⟩)
        ⟨18, 23⟩ 0).moves.length = 3 ∧
    (moveMouseTo (fun (st : Nat) _ => (true, st + 1)) (fun p => ⟨p.xp + 10, p.yp + 20⟩)
        ⟨18, 23⟩ 0).moves.getLast? = some ⟨18, 23⟩ ∧
    (moveMouseTo (fun (st : Nat) _ => (true, st + 1)) (fun p => ⟨p.xp + 10, p.yp + 20⟩)
        ⟨18, 23⟩ 0).platform = 3 :=
  have hall : ∀ b ∈ (callMouseMoves (fun (st : Nat) _ => (true, st + 1)) 0
      (moveMouseTo (fun (st : Nat) _ => (true, st + 1))
        (fun p => ⟨p.xp + 10, p.yp + 20⟩) ⟨18, 23⟩ 0).moves).1, b = true := by
    simp [moveMouseTo, moveMouseToLoop, stepToward, callMouseMoves]
  ⟨((moveMouseTo_moves (fun (st : Nat) _ => (true, st + 1)) (fun p => ⟨p.xp + 10, p.yp + 20⟩)
      ⟨18, 23⟩ 0).2.2.2.2.2.2.2 hall).1,
   ((moveMouseTo_moves (fun (st : Nat) _ => (true, st + 1)) (fun p => ⟨p.xp + 10, p.yp + 20⟩)
      ⟨18, 23⟩ 0).2.2.2.2.2.2.2 hall).2 (by decide),
   by simp [moveMouseTo, moveMouseToLoop, stepToward]⟩

end Tests

end KDDockWidgets
